import Mathlib

/-!
Verification of the SphinxAI filtering core (src/main.py).

The program loads two tabular datasets (pandas DataFrames), applies
per-column filters to the primary dataset (`FilterManager.apply_filters`),
cross-references the surviving scenario labels against the secondary
dataset's "Escenario:"-prefixed columns (in `main`, via
`Series.str.contains`, which reads each label as a regular expression),
and applies further categorical filters to the survivors
(`ExerciseManager.apply_exercise_filters`).

The embedding below models a cell value as {missing, integer, text}
(the spec's data model for loaded sheets), a row as an association list
from column name to value, and a DataFrame as a column list plus a row
list.  Each Lean definition is a direct transcription of a function or
code block of src/main.py, named after it.
-/

set_option autoImplicit false

namespace SphinxAI

/-- A cell value of a loaded dataset: missing (pandas NaN), an integer, or text. -/
inductive Value where
  | missing : Value
  | int : Int → Value
  | text : String → Value
deriving DecidableEq, Repr

/-- A row: an association list from column name to cell value. -/
abbrev Row := List (String × Value)

/-- A dataset: an ordered list of column names and an ordered list of rows.
Invariant (from loading): every row's keys are the dataset's columns. -/
structure DataFrame where
  cols : List String
  rows : List Row
deriving DecidableEq, Repr

/-- Cell access `row[col]`: the first value stored under `col`,
missing if the row has no such column. -/
def getCell : Row → String → Value
  | [], _ => Value.missing
  | (k, v) :: rest, c => if k = c then v else getCell rest c

/-- Embedding of `pd.isna` on a cell value. -/
def isna : Value → Bool
  | Value.missing => true
  | _ => false

/-- Embedding of Python `str()` applied to a cell value, as pandas
`astype(str)` does per cell: NaN prints as "nan", integers in decimal,
text unchanged. -/
def str_of_value : Value → String
  | Value.missing => "nan"
  | Value.int n => toString n
  | Value.text s => s

/-- Accumulator pass of `re.findall(r'\d+', s)` followed by `int(...)`:
scan the characters, collecting each maximal digit run as a number. -/
def digitRunsAux : List Char → Option Nat → List Nat
  | [], none => []
  | [], some n => [n]
  | c :: rest, acc =>
    if c.isDigit then
      digitRunsAux rest (some ((acc.getD 0) * 10 + (c.toNat - 48)))
    else
      match acc with
      | some n => n :: digitRunsAux rest none
      | none => digitRunsAux rest none

/-- All maximal digit runs of a string, left to right, as numbers:
the `numbers` list of `FilterManager.is_in_percentage_range`. -/
def digitRuns (s : String) : List Nat := digitRunsAux s.data none

/-- Embedding of `FilterManager.is_in_percentage_range(value, range_str)`
(src/main.py lines 112-123): missing cell never matches; one extracted
number `n` matches iff `value == n`; two extracted numbers `lo, hi` (in
extraction order) match iff `lo <= value <= hi`; any other count never
matches. -/
def is_in_percentage_range (value : Int) (range_str : Value) : Bool :=
  if isna range_str then false
  else
    match digitRuns (str_of_value range_str) with
    | [n] => value == (n : Int)
    | [lo, hi] => decide ((lo : Int) ≤ value) && decide (value ≤ (hi : Int))
    | _ => false

/-- Per-row body of `FilterManager.create_percentage_mask` (lines 101-110):
`not pd.isna(row[col]) and is_in_percentage_range(value, row[col])`. -/
def create_percentage_mask_row (col : String) (value : Int) (row : Row) : Bool :=
  !(isna (getCell row col)) && is_in_percentage_range value (getCell row col)

/-- Embedding of pandas `Series.isin` on one cell: membership of the cell
value in the selected list (exact equality on the stored value). -/
def isin (v : Value) : List Value → Bool
  | [] => false
  | x :: rest => decide (v = x) || isin v rest

/-- One filter loop of `FilterManager.apply_filters`: iterate the filter
entries over an accumulator `(rows, any_filter_applied)`; an entry whose
`inert` test holds is skipped, otherwise the rows are filtered by the
entry's per-row predicate and the flag is set.  Both loops of
`apply_filters` (lines 86-97) are instances of this shape. -/
def filterStep {β : Type} (inert : β → Bool) (pred : β → Row → Bool)
    (items : List β) (acc : List Row × Bool) : List Row × Bool :=
  items.foldl (fun acc b => if inert b then acc else (acc.1.filter (pred b), true)) acc

/-- A categorical filter entry `(col, selected_values)` is skipped when its
selection is empty (`if selected_values:` falsy). -/
def catInert (f : String × List Value) : Bool := f.2.isEmpty

/-- A categorical filter entry keeps the rows whose cell under its column
is in its selection (`filtered_df[filtered_df[col].isin(selected_values)]`). -/
def catPred (f : String × List Value) (row : Row) : Bool := isin (getCell row f.1) f.2

/-- A slider filter entry `(col, selected_value)` is skipped when its value
is the neutral 50 (`if selected_value != 50` fails). -/
def sliderInert (f : String × Int) : Bool := f.2 == 50

/-- A slider filter entry keeps the rows passing `create_percentage_mask`. -/
def sliderPred (f : String × Int) (row : Row) : Bool :=
  create_percentage_mask_row f.1 f.2 row

/-- Embedding of `FilterManager.apply_filters(df, filters, slider_filters)`
(src/main.py lines 81-99): start from a copy of the dataset with
`any_filter_applied = False`, run the categorical filter loop, then the
slider filter loop, and return the filtered dataset with the flag. -/
def apply_filters (df : DataFrame) (filters : List (String × List Value))
    (slider_filters : List (String × Int)) : DataFrame × Bool :=
  let s1 := filterStep catInert catPred filters (df.rows, false)
  let s2 := filterStep sliderInert sliderPred slider_filters s1
  (⟨df.cols, s2.1⟩, s2.2)

/-- Character-list test: `p` occurs at the head of `s`. -/
def charListPre : List Char → List Char → Bool
  | [], _ => true
  | _ :: _, [] => false
  | p :: ps, c :: cs => decide (p = c) && charListPre ps cs

/-- Character-list test: `p` occurs contiguously somewhere in `s`. -/
def occursIn (p : List Char) : List Char → Bool
  | [] => p.isEmpty
  | c :: cs => charListPre p (c :: cs) || occursIn p cs

/-- Plain substring containment: `sub` occurs contiguously in `s`.  This
is the spec's matching criterion ("contains that label as a case-sensitive
substring"), stated here to be compared against the program's actual
matcher `re_search` below; the two coincide exactly on patterns free of
regular-expression metacharacters. -/
def strContains (s sub : String) : Bool := occursIn sub.data s.data

/-- Column-name test `str(c).startswith("Escenario:")`. -/
def strStartsWith (s p : String) : Bool := charListPre p.data s.data

/-- The characters the `re` module treats specially in a pattern. -/
def pyMetaChars : List Char := "\\^$.|?*+()[]\x7b\x7d".data

/-- Does `re` treat this pattern character specially? -/
def isRegexMeta (c : Char) : Bool := decide (c ∈ pyMetaChars)

/-- A pattern string that `re` reads as a plain literal: none of its
characters is a regex metacharacter. -/
def regexLiteral (pat : String) : Bool := pat.data.all (fun c => !isRegexMeta c)

/-- One token of a parsed pattern: a literal character, or the dot
metacharacter matching any single character. -/
inductive RTok where
  | lit : Char → RTok
  | dot : RTok
deriving DecidableEq, Repr

/-- Reading of a pattern string in the modelled regex fragment: a dot
becomes the any-character token, every other character a literal. -/
def parsePat (pat : String) : List RTok :=
  pat.data.map (fun c => if c = '.' then RTok.dot else RTok.lit c)

/-- Does one pattern token match one subject character? -/
def tokMatches : RTok → Char → Bool
  | RTok.dot, _ => true
  | RTok.lit p, c => decide (p = c)

/-- Does the token sequence match at the head of the subject? -/
def matchHere : List RTok → List Char → Bool
  | [], _ => true
  | _ :: _, [] => false
  | t :: ts, c :: cs => tokMatches t c && matchHere ts cs

/-- Does the token sequence match starting at some position of the
subject? -/
def searchFrom (ts : List RTok) : List Char → Bool
  | [] => ts.isEmpty
  | c :: cs => matchHere ts (c :: cs) || searchFrom ts cs

/-- Embedding of `re.search(pat, s) is not None`, the test performed per
cell by `Series.str.contains(pat)` under its default regular-expression
interpretation of the pattern (src/main.py line 212 passes the selected
label with no escaping and no `regex=False`).  Modelled for the pattern
fragment of literal characters and the dot metacharacter — dot matches
any single character, every other character only itself.  Pattern syntax
outside this fragment (quantifiers, classes, groups, anchors, escapes,
and invalid patterns, which make `re` raise) is not modelled; the
theorems below evaluate this matcher only inside the fragment, or
restrict to metacharacter-free labels, on which it provably coincides
with plain substring containment. -/
def re_search (s pat : String) : Bool := searchFrom (parsePat pat) s.data

/-- In-place effect of `df_exercises[col] = df_exercises[col].astype(str)`
(src/main.py line 210) on one row, over all columns in `scols`: each cell
stored under a column of `scols` is replaced by its text form. -/
def stringify_scenario_row (scols : List String) (row : Row) : Row :=
  row.map (fun cv => if cv.1 ∈ scols then (cv.1, Value.text (str_of_value cv.2)) else cv)

/-- Embedding of the scenario cross-reference block of `main`
(src/main.py lines 206-214).  The code mutates `df_exercises`: for each
column whose name starts with "Escenario:" it replaces the column by its
`astype(str)` form, and simultaneously ORs into `exercise_mask`, for each
selected scenario label, whether the (stringified) cell matches the label
under `str.contains` (modelled by `re_search`);
finally `filtered_exercises = df_exercises[exercise_mask]`.  The first
component of the result is the post-state of `df_exercises` (its
"Escenario:" columns stringified); the second is `filtered_exercises`. -/
def filter_exercises_by_scenarios (df : DataFrame) (selected : List String) :
    DataFrame × DataFrame :=
  let scols := df.cols.filter (fun c => strStartsWith c "Escenario:")
  let post : DataFrame := ⟨df.cols, df.rows.map (stringify_scenario_row scols)⟩
  let mask : Row → Bool := fun row =>
    scols.any (fun c => selected.any (fun esc => re_search (str_of_value (getCell row c)) esc))
  (post, ⟨df.cols, post.rows.filter mask⟩)

/-- Embedding of `ExerciseManager.apply_exercise_filters(df, filters)`
(src/main.py lines 160-167): sequentially apply each non-empty categorical
selection by `isin` filtering, on a copy of the dataset. -/
def apply_exercise_filters (df : DataFrame) (filters : List (String × List Value)) :
    DataFrame :=
  ⟨df.cols, filters.foldl
    (fun rows f => if f.2.isEmpty then rows else rows.filter (fun row => isin (getCell row f.1) f.2))
    df.rows⟩

/-- Outcome of the secondary (exercises) part of `main`
(src/main.py lines 206-233). -/
inductive PipelineOutcome where
  | noScenariosSelected : PipelineOutcome
  | noMatchingExercises : PipelineOutcome
  | results : DataFrame → PipelineOutcome
deriving DecidableEq, Repr

/-- Embedding of the secondary branch of `main` (src/main.py lines
206-233): if no scenario is selected, warn and do nothing further
(`else: st.warning(...)`); otherwise cross-reference the exercises, and if
nothing matched warn, else apply the exercise filters and show the result. -/
def run_secondary (df_exercises : DataFrame) (selected : List String)
    (exercise_filters : List (String × List Value)) : PipelineOutcome :=
  if selected.isEmpty then
    PipelineOutcome.noScenariosSelected
  else
    let filtered := (filter_exercises_by_scenarios df_exercises selected).2
    if filtered.rows.isEmpty then
      PipelineOutcome.noMatchingExercises
    else
      PipelineOutcome.results (apply_exercise_filters filtered exercise_filters)

/-- Characterization of one filter loop: the surviving rows are the input
rows on which every entry is inert or satisfied, and the flag is set iff it
was set before or some entry is non-inert. -/
theorem filterStep_eq {β : Type} (inert : β → Bool) (pred : β → Row → Bool) :
    ∀ (items : List β) (rows : List Row) (flag : Bool),
      filterStep inert pred items (rows, flag)
        = (rows.filter (fun r => items.all (fun b => inert b || pred b r)),
           flag || items.any (fun b => !inert b)) := by
  intro items
  induction items with
  | nil =>
    intro rows flag
    simp [filterStep]
  | cons b items ih =>
    intro rows flag
    have hstep : filterStep inert pred (b :: items) (rows, flag)
        = filterStep inert pred items
            (if inert b then (rows, flag) else (rows.filter (pred b), true)) := rfl
    rw [hstep]
    by_cases hb : inert b
    · rw [if_pos hb, ih]
      simp [hb]
    · rw [if_neg hb, ih]
      rw [Bool.not_eq_true] at hb
      simp [hb, List.filter_filter, Bool.and_comm]

/-- Cell membership test `isin` agrees with list membership. -/
theorem isin_iff (v : Value) (l : List Value) : isin v l = true ↔ v ∈ l := by
  induction l with
  | nil => simp [isin]
  | cons x rest ih => simp [isin, ih]

/-- Closed form of `apply_filters`: the result is the dataset filtered by
the conjunction of all active predicates, paired with the
"some filter is active" flag. -/
theorem apply_filters_eq (df : DataFrame) (filters : List (String × List Value))
    (slider_filters : List (String × Int)) :
    apply_filters df filters slider_filters
      = (⟨df.cols, df.rows.filter (fun r =>
            (filters.all (fun f => catInert f || catPred f r))
            && slider_filters.all (fun f => sliderInert f || sliderPred f r))⟩,
         filters.any (fun f => !catInert f) || slider_filters.any (fun f => !sliderInert f)) := by
  have h1 := filterStep_eq catInert catPred filters df.rows false
  have h2 := filterStep_eq sliderInert sliderPred slider_filters
      (df.rows.filter (fun r => filters.all (fun f => catInert f || catPred f r)))
      (false || filters.any (fun f => !catInert f))
  simp only [apply_filters]
  rw [h1, h2]
  simp [List.filter_filter, Bool.and_comm]

/-- C6: for every integer query value `q` and every cell text from which
exactly one maximal digit run is extracted as the integer `n`,
`is_in_percentage_range` returns true if and only if `q == n`. -/
theorem c6_single_number_exact_match (q : Int) (s : String) (n : Nat)
    (h : digitRuns s = [n]) :
    is_in_percentage_range q (Value.text s) = true ↔ q = (n : Int) := by
  simp [is_in_percentage_range, isna, str_of_value, h]

/-- Witness for C6 at the concrete text "50%" and query 50. -/
theorem c6_single_number_exact_match_witness :
    digitRuns "50%" = [50]
      ∧ (is_in_percentage_range 50 (Value.text "50%") = true ↔ (50 : Int) = ((50 : Nat) : Int)) :=
  ⟨by decide, c6_single_number_exact_match 50 "50%" 50 (by decide)⟩

/-- C7: for every integer query value `q` and every cell text from which
exactly two maximal digit runs `lo, hi` are extracted in left-to-right
order, `is_in_percentage_range` returns true if and only if
`lo <= q <= hi` on the as-extracted pair, with no reordering when
`lo > hi`. -/
theorem c7_two_number_range_match (q : Int) (s : String) (lo hi : Nat)
    (h : digitRuns s = [lo, hi]) :
    is_in_percentage_range q (Value.text s) = true ↔ ((lo : Int) ≤ q ∧ q ≤ (hi : Int)) := by
  simp [is_in_percentage_range, isna, str_of_value, h]

/-- Witness for C7 at the malformed concrete range "60-40" and query 50:
the as-extracted order is used, so the match is `60 <= 50 <= 40`. -/
theorem c7_two_number_range_match_witness :
    digitRuns "60-40" = [60, 40]
      ∧ (is_in_percentage_range 50 (Value.text "60-40") = true
          ↔ (((60 : Nat) : Int) ≤ 50 ∧ (50 : Int) ≤ ((40 : Nat) : Int))) :=
  ⟨by decide, c7_two_number_range_match 50 "60-40" 60 40 (by decide)⟩

/-- C8: `is_in_percentage_range` is a total Boolean function of its
arguments (it is a Lean `def`, defined on every input), and it returns
false for every integer query whenever the cell is missing or the number
of maximal digit runs of the cell text is zero or three or more. -/
theorem c8_total_false_on_unparseable :
    (∀ q : Int, is_in_percentage_range q Value.missing = false)
    ∧ (∀ (q : Int) (s : String), digitRuns s = [] →
        is_in_percentage_range q (Value.text s) = false)
    ∧ (∀ (q : Int) (s : String), 3 ≤ (digitRuns s).length →
        is_in_percentage_range q (Value.text s) = false) := by
  refine ⟨fun q => rfl, fun q s h => ?_, fun q s h => ?_⟩
  · simp [is_in_percentage_range, isna, str_of_value, h]
  · rcases hds : digitRuns s with _ | ⟨a, _ | ⟨b, _ | ⟨c, rest⟩⟩⟩
    · rw [hds] at h; simp at h
    · rw [hds] at h; simp at h
    · rw [hds] at h; simp at h
    · simp [is_in_percentage_range, isna, str_of_value, hds]

/-- Witness for C8 on a missing cell, the digit-free text "abc", and the
three-number text "10-20-30". -/
theorem c8_total_false_on_unparseable_witness :
    is_in_percentage_range 50 Value.missing = false
    ∧ (digitRuns "abc" = [] ∧ is_in_percentage_range 7 (Value.text "abc") = false)
    ∧ (3 ≤ (digitRuns "10-20-30").length
        ∧ is_in_percentage_range 15 (Value.text "10-20-30") = false) :=
  ⟨c8_total_false_on_unparseable.1 50,
   ⟨by decide, c8_total_false_on_unparseable.2.1 7 "abc" (by decide)⟩,
   ⟨by decide, c8_total_false_on_unparseable.2.2 15 "10-20-30" (by decide)⟩⟩

/-- Per-entry reading of a categorical filter entry: it passes a row iff,
when its selection is non-empty, the row's cell is one of the selected
values. -/
theorem cat_entry_iff (f : String × List Value) (r : Row) :
    (catInert f || catPred f r) = true ↔ (f.2 ≠ [] → getCell r f.1 ∈ f.2) := by
  rcases hf : f.2 with _ | ⟨x, rest⟩
  · simp [catInert, hf]
  · simp [catInert, catPred, hf, isin_iff]

/-- Per-entry reading of a slider filter entry: it passes a row iff, when
its query value is not the neutral 50, the row's cell is non-missing and
its parsed range contains the query value. -/
theorem slider_entry_iff (f : String × Int) (r : Row) :
    (sliderInert f || sliderPred f r) = true ↔
      (f.2 ≠ 50 → isna (getCell r f.1) = false
        ∧ is_in_percentage_range f.2 (getCell r f.1) = true) := by
  by_cases h : f.2 = 50
  · simp [sliderInert, h]
  · simp [sliderInert, sliderPred, h, create_percentage_mask_row, Bool.and_eq_true]

/-- C3: a row appears in the output of `apply_filters` iff it is a row of
the input and, for every categorical entry with a non-empty selection, its
cell is a member of the selection, and, for every slider entry with query
value other than 50, its cell is non-missing and the parsed numeric range
contains the query value — the AND of all active predicates, with inert
entries imposing no restriction. -/
theorem c3_apply_filters_membership (df : DataFrame)
    (filters : List (String × List Value)) (slider_filters : List (String × Int))
    (r : Row) :
    r ∈ (apply_filters df filters slider_filters).1.rows ↔
      (r ∈ df.rows
        ∧ (∀ f ∈ filters, f.2 ≠ [] → getCell r f.1 ∈ f.2)
        ∧ (∀ f ∈ slider_filters, f.2 ≠ 50 →
            isna (getCell r f.1) = false
              ∧ is_in_percentage_range f.2 (getCell r f.1) = true)) := by
  rw [apply_filters_eq]
  simp only [List.mem_filter, Bool.and_eq_true, List.all_eq_true, cat_entry_iff,
    slider_entry_iff]

/-- Witness for C3: a two-row dataset, one categorical filter and one
slider filter; the row satisfying both predicates is in the output. -/
theorem c3_apply_filters_membership_witness :
    [("A", Value.text "x"), ("P", Value.text "40-60")]
      ∈ (apply_filters
          ⟨["A", "P"],
            [[("A", Value.text "x"), ("P", Value.text "40-60")],
             [("A", Value.text "y"), ("P", Value.text "10-20")]]⟩
          [("A", [Value.text "x"])] [("P", 55)]).1.rows :=
  (c3_apply_filters_membership _ _ _ _).mpr (by decide)

/-- C4: applying a predicate set in which every categorical selection is
empty and every slider query value is 50 returns the original dataset
unchanged and reports `any_filter_applied = false`. -/
theorem c4_all_inert_identity (df : DataFrame)
    (filters : List (String × List Value)) (slider_filters : List (String × Int))
    (hcat : ∀ f ∈ filters, f.2 = [])
    (hslider : ∀ f ∈ slider_filters, f.2 = 50) :
    apply_filters df filters slider_filters = (df, false) := by
  obtain ⟨cols, rows⟩ := df
  rw [apply_filters_eq]
  simp only [Prod.mk.injEq, DataFrame.mk.injEq]
  refine ⟨⟨trivial, ?_⟩, ?_⟩
  · rw [List.filter_eq_self]
    intro r hr
    simp only [Bool.and_eq_true, List.all_eq_true]
    refine ⟨fun f hf => ?_, fun f hf => ?_⟩
    · simp [catInert, hcat f hf]
    · simp [sliderInert, hslider f hf]
  · simp only [Bool.or_eq_false_iff, List.any_eq_false]
    refine ⟨fun f hf => ?_, fun f hf => ?_⟩
    · simp [catInert, hcat f hf]
    · simp [sliderInert, hslider f hf]

/-- Witness for C4 at a one-row dataset, an empty categorical selection
and a neutral slider. -/
theorem c4_all_inert_identity_witness :
    (∀ f ∈ [("A", ([] : List Value))], f.2 = [])
    ∧ (∀ f ∈ [("B", (50 : Int))], f.2 = 50)
    ∧ apply_filters ⟨["A"], [[("A", Value.text "x")]]⟩ [("A", [])] [("B", 50)]
        = (⟨["A"], [[("A", Value.text "x")]]⟩, false) :=
  ⟨by decide, by decide,
   c4_all_inert_identity ⟨["A"], [[("A", Value.text "x")]]⟩ [("A", [])] [("B", 50)]
     (by decide) (by decide)⟩

/-- C5: `apply_filters` reports `any_filter_applied = true` iff some entry
is non-inert — a categorical entry with a non-empty selection or a slider
entry with query value other than 50 — for every dataset, independent of
whether any row was removed. -/
theorem c5_anyActive_iff (df : DataFrame) (filters : List (String × List Value))
    (slider_filters : List (String × Int)) :
    (apply_filters df filters slider_filters).2 = true ↔
      ((∃ f ∈ filters, f.2 ≠ []) ∨ (∃ f ∈ slider_filters, f.2 ≠ 50)) := by
  rw [apply_filters_eq]
  simp [List.any_eq_true, catInert, sliderInert, List.isEmpty_iff]

/-- Witness for C5: a slider set to 55 that removes no row (the dataset is
empty) still reports the flag as true. -/
theorem c5_anyActive_iff_witness :
    (apply_filters ⟨["P"], []⟩ [] [("P", 55)]).2 = true :=
  (c5_anyActive_iff ⟨["P"], []⟩ [] [("P", 55)]).mpr (by decide)

/-- A pattern of literal tokens matches at the head of the subject exactly
when the pattern's characters are a prefix of the subject. -/
theorem matchHere_map_lit (p : List Char) :
    ∀ s : List Char, matchHere (p.map RTok.lit) s = charListPre p s := by
  induction p with
  | nil => intro s; cases s <;> rfl
  | cons c cs ih =>
    intro s
    cases s with
    | nil => rfl
    | cons d ds => simp [matchHere, charListPre, tokMatches, ih]

/-- A pattern of literal tokens matches somewhere in the subject exactly
when the pattern's characters occur contiguously in the subject. -/
theorem searchFrom_map_lit (p : List Char) :
    ∀ s : List Char, searchFrom (p.map RTok.lit) s = occursIn p s := by
  intro s
  induction s with
  | nil => cases p <;> rfl
  | cons c cs ih => simp [searchFrom, occursIn, matchHere_map_lit, ih]

/-- A pattern with no dot character parses to its characters as literal
tokens. -/
theorem parsePat_of_no_dot (pat : String) (h : ∀ c ∈ pat.data, ¬(c = '.')) :
    parsePat pat = pat.data.map RTok.lit := by
  unfold parsePat
  apply List.map_congr_left
  intro c hc
  rw [if_neg (h c hc)]

/-- On a metacharacter-free label the program's regex search coincides
with plain substring containment. -/
theorem re_search_eq_strContains_of_literal (s pat : String)
    (h : regexLiteral pat = true) :
    re_search s pat = strContains s pat := by
  have hdot : ∀ c ∈ pat.data, ¬(c = '.') := by
    intro c hc hcd
    have h1 := List.all_eq_true.mp h c hc
    rw [hcd] at h1
    have h2 : isRegexMeta '.' = true := by decide
    rw [h2] at h1
    exact absurd h1 (by decide)
  unfold re_search strContains
  rw [parsePat_of_no_dot pat hdot, searchFrom_map_lit]

/-- C1 counterexample: the claimed substring characterization is false of
the program.  `str.contains` reads the selected label as a regular
expression, so with selected label "a.b" the row whose "Escenario: A" cell
is "axb" is included in the cross-reference (the dot matches "x"), yet
"a.b" is not a substring of any of that row's scenario cells. -/
theorem c1_counterexample_regex_label :
    ¬ (∀ r ∈ (filter_exercises_by_scenarios
          ⟨["Escenario: A"], [[("Escenario: A", Value.text "axb")]]⟩ ["a.b"]).1.rows,
        (r ∈ (filter_exercises_by_scenarios
            ⟨["Escenario: A"], [[("Escenario: A", Value.text "axb")]]⟩ ["a.b"]).2.rows ↔
          ∃ c ∈ ["Escenario: A"], strStartsWith c "Escenario:" = true
            ∧ ∃ esc ∈ ["a.b"],
                strContains (str_of_value (getCell r c)) esc = true)) := by
  decide

/-- C1 amended: for every secondary dataset and every non-empty selection
of scenario labels each free of regex metacharacters, the cross-reference
includes a row iff some column whose name begins with "Escenario:" and
some selected label exist such that the row's cell in that column, treated
as text, contains the label as a substring; and if no column name begins
with "Escenario:", no row is included.  The rows here are those of the
dataset as the code holds it at masking time (its "Escenario:" columns
already in text form). -/
theorem c1_cross_reference_membership (df : DataFrame) (selected : List String)
    (_hsel : selected ≠ [])
    (hlit : ∀ esc ∈ selected, regexLiteral esc = true) :
    (∀ r : Row,
      r ∈ (filter_exercises_by_scenarios df selected).2.rows ↔
        (r ∈ (filter_exercises_by_scenarios df selected).1.rows
          ∧ ∃ c ∈ df.cols, strStartsWith c "Escenario:" = true
              ∧ ∃ esc ∈ selected, strContains (str_of_value (getCell r c)) esc = true))
    ∧ (df.cols.filter (fun c => strStartsWith c "Escenario:") = [] →
        (filter_exercises_by_scenarios df selected).2.rows = []) := by
  constructor
  · intro r
    simp only [filter_exercises_by_scenarios, List.mem_filter, List.any_eq_true]
    constructor
    · rintro ⟨hr, c, ⟨hc, hcp⟩, esc, hesc, hestr⟩
      rw [re_search_eq_strContains_of_literal _ _ (hlit esc hesc)] at hestr
      exact ⟨hr, c, hc, hcp, esc, hesc, hestr⟩
    · rintro ⟨hr, c, hc, hcp, esc, hesc, hestr⟩
      rw [← re_search_eq_strContains_of_literal _ _ (hlit esc hesc)] at hestr
      exact ⟨hr, c, ⟨hc, hcp⟩, esc, hesc, hestr⟩
  · intro hscols
    simp only [filter_exercises_by_scenarios, hscols, List.any_nil]
    simp

/-- Witness for C1's amended statement: one "Escenario:" column, one
metacharacter-free selected label occurring in the first row's cell but
not the second's. -/
theorem c1_cross_reference_membership_witness :
    (["ritmo"] ≠ ([] : List String))
    ∧ (∀ esc ∈ ["ritmo"], regexLiteral esc = true)
    ∧ ((∀ r : Row,
        r ∈ (filter_exercises_by_scenarios
              ⟨["Escenario: A"],
                [[("Escenario: A", Value.text "con ritmo")],
                 [("Escenario: A", Value.text "sin pausa")]]⟩ ["ritmo"]).2.rows ↔
          (r ∈ (filter_exercises_by_scenarios
              ⟨["Escenario: A"],
                [[("Escenario: A", Value.text "con ritmo")],
                 [("Escenario: A", Value.text "sin pausa")]]⟩ ["ritmo"]).1.rows
            ∧ ∃ c ∈ ["Escenario: A"], strStartsWith c "Escenario:" = true
                ∧ ∃ esc ∈ ["ritmo"],
                    strContains (str_of_value (getCell r c)) esc = true))
      ∧ ((["Escenario: A"].filter (fun c => strStartsWith c "Escenario:")) = [] →
          (filter_exercises_by_scenarios
              ⟨["Escenario: A"],
                [[("Escenario: A", Value.text "con ritmo")],
                 [("Escenario: A", Value.text "sin pausa")]]⟩ ["ritmo"]).2.rows = [])) :=
  ⟨by decide, by decide,
   c1_cross_reference_membership
     ⟨["Escenario: A"],
       [[("Escenario: A", Value.text "con ritmo")],
        [("Escenario: A", Value.text "sin pausa")]]⟩ ["ritmo"] (by decide) (by decide)⟩

/-- C9: when the set of selected scenario labels is empty, the secondary
branch of `main` reports the distinct "no scenarios selected" outcome —
different from both the "zero exercises matched" outcome and any result —
and performs no secondary filtering at all. -/
theorem c9_empty_selection_distinct_state (df : DataFrame)
    (exercise_filters : List (String × List Value)) :
    run_secondary df [] exercise_filters = PipelineOutcome.noScenariosSelected
    ∧ (∀ d : DataFrame,
        PipelineOutcome.noScenariosSelected ≠ PipelineOutcome.noMatchingExercises
        ∧ PipelineOutcome.noScenariosSelected ≠ PipelineOutcome.results d) := by
  exact ⟨rfl, fun d => ⟨by simp, by simp⟩⟩

/-- Witness for C9 on a concrete one-row exercise dataset. -/
theorem c9_empty_selection_distinct_state_witness :
    run_secondary ⟨["Filmina"], [[("Filmina", Value.int 1)]]⟩ [] []
      = PipelineOutcome.noScenariosSelected :=
  (c9_empty_selection_distinct_state ⟨["Filmina"], [[("Filmina", Value.int 1)]]⟩ []).1

end SphinxAI
